import Mathlib

/-!
Shallow embedding of the YieldSense price-monitoring core:
the Price Watch Loop (`PriceMonitor.checkPrice`), the Notification
Dispatcher (`PriceMonitor.sendTelegramAlert`), the Configuration Store
callback (`PriceMonitor.start` / `FirebaseManager.listenToConfig` and
`FirebaseManager.logAlert`), and the dashboard WebSocket reconnection
client (`useWebSocket`).

External effects (Oracle fetch, Telegram HTTP call, Firestore write,
socket events) are injected as explicit inputs; the functions return the
list of observable actions the TypeScript code performs, plus an explicit
`thrown` field recording what, if anything, escapes to the caller.
Prices are modelled as rationals.
-/

namespace YieldSense

/-- String containment on character lists, mirroring JavaScript
`String.prototype.includes`. -/
def containsSub (hay needle : List Char) : Bool :=
  match hay with
  | [] => needle.isEmpty
  | _ :: t => needle.isPrefixOf hay || containsSub t needle

/-- JavaScript `s.includes(sub)`. -/
def strIncludes (s sub : String) : Bool :=
  containsSub s.data sub.data

/-- JavaScript `s.startsWith(pre)`. -/
def strStartsWith (s pre : String) : Bool :=
  pre.data.isPrefixOf s.data

/-- `PriceMonitorConfig` from `src/monitoring/PriceMonitor.ts`. -/
structure PriceMonitorConfig where
  rpcUrl : String
  poolAddress : String
  telegramBotToken : String
  telegramChatId : String
  checkIntervalMs : Nat
  priceLowerBound : ℚ
  priceUpperBound : ℚ
deriving DecidableEq

/-- The placeholder-credential test of `sendTelegramAlert` (line 143):
`token.includes("123456:ABC") || token.includes("TELEGRAM_BOT_TOKEN")`. -/
def placeholderToken (token : String) : Bool :=
  strIncludes token "123456:ABC" || strIncludes token "TELEGRAM_BOT_TOKEN"

/-- The quote-asset heuristic of `checkPrice` (line 110):
`mintA.startsWith("EPj") || mintA.startsWith("Es9")` (USDC or USDT). -/
def isQuoteTokenA (mintA : String) : Bool :=
  strStartsWith mintA "EPj" || strStartsWith mintA "Es9"

/-- Orientation applied by `checkPrice` (lines 112-114): if token A is a
recognized quote asset, the raw price (B per A) is inverted
(`PriceMath.invertPrice`, i.e. the reciprocal in human units). -/
def orientPrice (rawPrice : ℚ) (mintA : String) : ℚ :=
  if isQuoteTokenA mintA then rawPrice⁻¹ else rawPrice

/-- The payload of the alert message string built at lines 137-140:
banner kind plus the interpolated pool address, price and bound range. -/
structure AlertMessage where
  isTest : Bool
  poolAddress : String
  price : ℚ
  lowerBound : ℚ
  upperBound : ℚ
deriving DecidableEq

/-- Message construction of `sendTelegramAlert` (lines 137-140). -/
def mkMessage (cfg : PriceMonitorConfig) (price : ℚ) (isTest : Bool) : AlertMessage :=
  { isTest := isTest
    poolAddress := cfg.poolAddress
    price := price
    lowerBound := cfg.priceLowerBound
    upperBound := cfg.priceUpperBound }

/-- The record passed to `firebaseManager.logAlert` (lines 175-182). -/
structure AlertRecord where
  poolAddress : String
  price : ℚ
  lowerBound : ℚ
  upperBound : ℚ
  message : AlertMessage
  telegramStatus : String
deriving DecidableEq

/-- Outcome of the external Telegram `fetch` call: an HTTP response with a
status code and body, or a network-level exception. -/
inductive ChannelResult where
  | response (status : Nat) (body : String)
  | netError (e : String)
deriving DecidableEq

/-- `response.ok` of the Fetch API: status in the 2xx range. -/
def statusOk (status : Nat) : Bool :=
  200 ≤ status && status ≤ 299

/-- Observable side effects of one `sendTelegramAlert` call. -/
inductive AlertEffect where
  | mockLog (msg : AlertMessage)
  | networkCall (chatId : String) (msg : AlertMessage)
  | logSuccess
  | log404Fallback (msg : AlertMessage)
  | logDeliveryFailure (status : Nat) (body : String)
  | logNetErr (e : String)
  | auditWrite (rec : AlertRecord)
deriving DecidableEq

/-- Result of a dispatcher call: its effects, and what (if anything) it
throws outward to the caller. -/
structure DispatchResult where
  effects : List AlertEffect
  thrown : Option String
deriving DecidableEq

/-- The `try` block of `sendTelegramAlert` (lines 153-186): the fetch call,
the response-status handling, and the conditional audit write.  A network
exception aborts the block (`Except.error`), to be caught by the
surrounding `catch`. -/
def sendTelegramAlertTry (cfg : PriceMonitorConfig) (price : ℚ) (isTest : Bool)
    (ch : ChannelResult) : Except String (List AlertEffect) :=
  let message := mkMessage cfg price isTest
  match ch with
  | ChannelResult.netError e => Except.error e
  | ChannelResult.response status body =>
    let statusEffects :=
      if !(statusOk status) then
        if status = 404 then [AlertEffect.log404Fallback message]
        else [AlertEffect.logDeliveryFailure status body]
      else [AlertEffect.logSuccess]
    let auditEffects :=
      if isTest then []
      else [AlertEffect.auditWrite
        { poolAddress := cfg.poolAddress
          price := price
          lowerBound := cfg.priceLowerBound
          upperBound := cfg.priceUpperBound
          message := message
          telegramStatus := if statusOk status then "success" else "failed" }]
    Except.ok (AlertEffect.networkCall cfg.telegramChatId message :: statusEffects ++ auditEffects)

/-- `PriceMonitor.sendTelegramAlert` (lines 136-187): the placeholder-token
short circuit (lines 142-149), then the `try`/`catch` around the channel
call; the `catch` (lines 184-186) converts a network exception into a log
line, so nothing is thrown outward. -/
def sendTelegramAlert (cfg : PriceMonitorConfig) (price : ℚ) (isTest : Bool)
    (ch : ChannelResult) : DispatchResult :=
  let message := mkMessage cfg price isTest
  if placeholderToken cfg.telegramBotToken then
    { effects := [AlertEffect.mockLog message], thrown := none }
  else
    match sendTelegramAlertTry cfg price isTest ch with
    | Except.ok effs => { effects := effs, thrown := none }
    | Except.error e => { effects := [AlertEffect.logNetErr e], thrown := none }

/-- Outcome of the Oracle-side fetches in `checkPrice`: a successful
observation (decimals-normalized raw price plus token A mint identity),
a null `poolData` (which the code turns into a thrown `Error`, line 88),
or an exception from the RPC calls themselves. -/
inductive FetchResult where
  | ok (rawPrice : ℚ) (mintA : String)
  | nullData
  | fetchError (e : String)
deriving DecidableEq

/-- Observable actions of one `checkPrice` poll tick. -/
inductive Action where
  | queryPool (addr : String)
  | logPrice (p : ℚ) (inverted : Bool)
  | logWaiting (p : ℚ)
  | dispatchAlert (p : ℚ)
  | logCheckError (e : String)
deriving DecidableEq

/-- The `try` block of `checkPrice` (lines 80-130): pool query, orientation,
price log, the sentinel (0,0) early return, and the out-of-bounds alert. -/
def checkPriceTry (cfg : PriceMonitorConfig) (fr : FetchResult) :
    Except String (List Action) :=
  match fr with
  | FetchResult.fetchError e => Except.error e
  | FetchResult.nullData =>
      Except.error ("Unable to fetch pool data for " ++ cfg.poolAddress)
  | FetchResult.ok rawPrice mintA =>
    let inverted := isQuoteTokenA mintA
    let priceNum := orientPrice rawPrice mintA
    let base := [Action.queryPool cfg.poolAddress, Action.logPrice priceNum inverted]
    if cfg.priceLowerBound = 0 ∧ cfg.priceUpperBound = 0 then
      Except.ok (base ++ [Action.logWaiting priceNum])
    else if priceNum < cfg.priceLowerBound ∨ priceNum > cfg.priceUpperBound then
      Except.ok (base ++ [Action.dispatchAlert priceNum])
    else
      Except.ok base

/-- `PriceMonitor.checkPrice` (lines 79-134): the whole body runs in a
`try`; the `catch` (lines 131-133) logs the error and returns, so the watch
loop keeps running. -/
def checkPrice (cfg : PriceMonitorConfig) (fr : FetchResult) : List Action :=
  match checkPriceTry cfg fr with
  | Except.ok acts => acts
  | Except.error e => [Action.logCheckError e]

/-- Number of dispatcher invocations in a poll trace. -/
def dispatchCount : List Action → Nat
  | [] => 0
  | Action.dispatchAlert _ :: t => dispatchCount t + 1
  | _ :: t => dispatchCount t

/-- The audit records written by a dispatcher call. -/
def auditRecords : List AlertEffect → List AlertRecord
  | [] => []
  | AlertEffect.auditWrite r :: t => r :: auditRecords t
  | _ :: t => auditRecords t

/-- Number of network calls performed by a dispatcher call. -/
def netCallCount : List AlertEffect → Nat
  | [] => 0
  | AlertEffect.networkCall _ _ :: t => netCallCount t + 1
  | _ :: t => netCallCount t

/-- The partial update payload delivered by the Configuration Store
(`MonitorConfig` in `FirebaseManager`): every field optional. -/
structure MonitorConfig where
  priceLowerBound : Option ℚ
  priceUpperBound : Option ℚ
  poolAddress : Option String
deriving DecidableEq

/-- The config-update callback registered in `PriceMonitor.start`
(lines 55-70): the pool address is replaced only when the update carries a
truthy (non-empty) address different from the current one; each bound is
replaced exactly when present in the update. -/
def applyConfigUpdate (cfg : PriceMonitorConfig) (nc : MonitorConfig) :
    PriceMonitorConfig :=
  let cfg1 :=
    match nc.poolAddress with
    | some a => if a ≠ "" ∧ a ≠ cfg.poolAddress then { cfg with poolAddress := a } else cfg
    | none => cfg
  let cfg2 :=
    match nc.priceLowerBound with
    | some l => { cfg1 with priceLowerBound := l }
    | none => cfg1
  match nc.priceUpperBound with
  | some u => { cfg2 with priceUpperBound := u }
  | none => cfg2

/-- Outcome of the Firestore `add` in `FirebaseManager.logAlert`: the
database may be uninitialized (`db = null`), the write may succeed, or the
write may reject. -/
inductive AuditOutcome where
  | dbUnavailable
  | writeOk
  | writeFail (e : String)
deriving DecidableEq

/-- Result of `FirebaseManager.logAlert`. -/
structure FirebaseResult where
  logged : Bool
  thrown : Option String
deriving DecidableEq

/-- `FirebaseManager.logAlert`: returns silently when the database is
unavailable; the Firestore write runs inside `try`/`catch`, and a failure
is logged, never propagated. -/
def logAlert (o : AuditOutcome) (_rec : AlertRecord) : FirebaseResult :=
  match o with
  | AuditOutcome.dbUnavailable => { logged := false, thrown := none }
  | AuditOutcome.writeOk => { logged := true, thrown := none }
  | AuditOutcome.writeFail _ => { logged := false, thrown := none }

/-!
Client-side WebSocket reconnection, from
`src/whirlpool-dashboard/src/hooks/useWebSocket.ts`: `isConnected` state,
a `reconnectAttempts` counter, a fixed `reconnectDelay` and a
`maxReconnectAttempts` cap.
-/

/-- Hook state: the `isConnected` React state and the
`reconnectAttempts` ref. -/
structure WSState where
  isConnected : Bool
  reconnectAttempts : Nat
deriving DecidableEq

/-- Socket lifecycle events observed by the hook handlers. -/
inductive WSEvent where
  | socketOpen
  | socketClose
deriving DecidableEq

/-- `options?.reconnectDelay ?? 3000` (line 37). -/
def defaultReconnectDelay : Nat := 3000

/-- `options?.maxReconnectAttempts ?? 10` (line 38). -/
def defaultMaxReconnectAttempts : Nat := 10

/-- Initial hook state: `useState(false)` and a zero attempts ref. -/
def wsInit : WSState := { isConnected := false, reconnectAttempts := 0 }

/-- One handler step: `ws.onopen` sets connected and resets the counter;
`ws.onclose` sets disconnected and, while the counter is below the cap,
increments it and schedules a reconnect after the fixed delay (the second
component records the scheduled delay, `none` when nothing is scheduled). -/
def wsStep (maxAttempts delay : Nat) (s : WSState) : WSEvent → WSState × Option Nat
  | WSEvent.socketOpen => ({ isConnected := true, reconnectAttempts := 0 }, none)
  | WSEvent.socketClose =>
    if s.reconnectAttempts < maxAttempts then
      ({ isConnected := false, reconnectAttempts := s.reconnectAttempts + 1 }, some delay)
    else
      ({ isConnected := false, reconnectAttempts := s.reconnectAttempts }, none)

/-- Folding `wsStep` over a sequence of socket events, collecting the
scheduled reconnect delays. -/
def wsRun (maxAttempts delay : Nat) (s : WSState) : List WSEvent → WSState × List Nat
  | [] => (s, [])
  | e :: es =>
    let step := wsStep maxAttempts delay s e
    let rest := wsRun maxAttempts delay step.1 es
    (rest.1, step.2.toList ++ rest.2)

/-!  Concrete configurations used by witnesses and counterexamples. -/

/-- A configuration carrying the demo placeholder bot token. -/
def demoCfg : PriceMonitorConfig :=
  { rpcUrl := "https://api.mainnet-beta.solana.com"
    poolAddress := "HJPjoWUrhoZzkNfRpHuieeFk9WcZWjwy6PBjZ81ngndJ"
    telegramBotToken := "123456:ABC-DEF1234ghIkl"
    telegramChatId := "42"
    checkIntervalMs := 60000
    priceLowerBound := 180
    priceUpperBound := 200 }

/-- A configuration carrying a real-looking bot token and the bounds of
Scenario A. -/
def armedCfg : PriceMonitorConfig :=
  { rpcUrl := "https://api.mainnet-beta.solana.com"
    poolAddress := "HJPjoWUrhoZzkNfRpHuieeFk9WcZWjwy6PBjZ81ngndJ"
    telegramBotToken := "7012345678:AAGxyzRealLookingSecret"
    telegramChatId := "42"
    checkIntervalMs := 60000
    priceLowerBound := 180
    priceUpperBound := 200 }

end YieldSense

namespace YieldSense

/-- Claim C1: on a poll tick with non-sentinel bounds, the dispatcher is
invoked exactly once when the observed (oriented) price is strictly below
the lower bound or strictly above the upper bound, and zero times when the
price lies within the inclusive bounds. -/
theorem checkPrice_dispatch_iff_out_of_bounds
    (cfg : PriceMonitorConfig) (rawPrice p : ℚ) (mintA : String)
    (hp : orientPrice rawPrice mintA = p)
    (hs : ¬(cfg.priceLowerBound = 0 ∧ cfg.priceUpperBound = 0)) :
    dispatchCount (checkPrice cfg (FetchResult.ok rawPrice mintA)) =
      (if p < cfg.priceLowerBound ∨ p > cfg.priceUpperBound then 1 else 0) ∧
    (cfg.priceLowerBound ≤ p ∧ p ≤ cfg.priceUpperBound →
      dispatchCount (checkPrice cfg (FetchResult.ok rawPrice mintA)) = 0) := by
  subst hp
  have key : dispatchCount (checkPrice cfg (FetchResult.ok rawPrice mintA)) =
      (if orientPrice rawPrice mintA < cfg.priceLowerBound ∨
          orientPrice rawPrice mintA > cfg.priceUpperBound then 1 else 0) := by
    by_cases hob : orientPrice rawPrice mintA < cfg.priceLowerBound ∨
        orientPrice rawPrice mintA > cfg.priceUpperBound
    · simp [checkPrice, checkPriceTry, dispatchCount, hs, hob]
    · simp [checkPrice, checkPriceTry, dispatchCount, hs, hob]
  refine ⟨key, ?_⟩
  rintro ⟨h1, h2⟩
  rw [key, if_neg]
  rintro (h | h) <;> linarith

/-- Claim C1 witness: with bounds (180, 200) and observed price 175 the
dispatcher fires exactly once. -/
theorem checkPrice_dispatch_iff_out_of_bounds_witness :
    dispatchCount (checkPrice armedCfg (FetchResult.ok 175 "So11111111111111111111111111111111111111112")) =
      (if (175 : ℚ) < armedCfg.priceLowerBound ∨ (175 : ℚ) > armedCfg.priceUpperBound then 1 else 0) :=
  (checkPrice_dispatch_iff_out_of_bounds armedCfg 175 175
    "So11111111111111111111111111111111111111112" (by decide) (by decide)).1

/-- Claim C2: with the sentinel bounds (0, 0), a poll tick logs the
observed price, logs that it is waiting for configuration, and returns
without invoking the dispatcher. -/
theorem checkPrice_sentinel_suppresses_alert
    (cfg : PriceMonitorConfig) (rawPrice : ℚ) (mintA : String)
    (h0 : cfg.priceLowerBound = 0) (h1 : cfg.priceUpperBound = 0) :
    checkPrice cfg (FetchResult.ok rawPrice mintA) =
      [Action.queryPool cfg.poolAddress,
       Action.logPrice (orientPrice rawPrice mintA) (isQuoteTokenA mintA),
       Action.logWaiting (orientPrice rawPrice mintA)] ∧
    dispatchCount (checkPrice cfg (FetchResult.ok rawPrice mintA)) = 0 := by
  constructor
  · simp [checkPrice, checkPriceTry, h0, h1]
  · simp [checkPrice, checkPriceTry, h0, h1, dispatchCount]

/-- Claim C2 witness: Scenario B — bounds (0, 0), observed price 500,
no dispatch and a waiting log entry. -/
theorem checkPrice_sentinel_suppresses_alert_witness :
    checkPrice { armedCfg with priceLowerBound := 0, priceUpperBound := 0 }
        (FetchResult.ok 500 "So11111111111111111111111111111111111111112") =
      [Action.queryPool armedCfg.poolAddress,
       Action.logPrice 500 false,
       Action.logWaiting 500] ∧
    dispatchCount (checkPrice { armedCfg with priceLowerBound := 0, priceUpperBound := 0 }
        (FetchResult.ok 500 "So11111111111111111111111111111111111111112")) = 0 := by
  have h := checkPrice_sentinel_suppresses_alert
    { armedCfg with priceLowerBound := 0, priceUpperBound := 0 }
    500 "So11111111111111111111111111111111111111112" (by decide) (by decide)
  simpa using h

end YieldSense

namespace YieldSense

/-- Claim C3 counterexample: a non-startup-test dispatch taken with the
placeholder bot token short-circuits to the mock log and writes no
AlertRecord at all, so it is not the case that every non-startup-test
dispatch produces an audit record. -/
theorem dispatch_placeholder_non_test_no_audit :
    auditRecords (sendTelegramAlert demoCfg 5 false (ChannelResult.response 200 "")).effects = [] := by
  decide

/-- Claim C3 (amended): a non-startup-test dispatch that passes the
placeholder check and receives an HTTP response writes exactly one
AlertRecord, with channelStatus success for a 2xx status and failed
otherwise; startup-test dispatches never write a record, and a dispatch
whose channel call ends in a network-level exception writes none. -/
theorem dispatch_audit_record_amended
    (cfg : PriceMonitorConfig) (price : ℚ) (status : Nat) (body e : String)
    (ch : ChannelResult)
    (hph : placeholderToken cfg.telegramBotToken = false) :
    auditRecords (sendTelegramAlert cfg price false (ChannelResult.response status body)).effects =
      [{ poolAddress := cfg.poolAddress
         price := price
         lowerBound := cfg.priceLowerBound
         upperBound := cfg.priceUpperBound
         message := mkMessage cfg price false
         telegramStatus := if statusOk status then "success" else "failed" }] ∧
    auditRecords (sendTelegramAlert cfg price true ch).effects = [] ∧
    auditRecords (sendTelegramAlert cfg price false (ChannelResult.netError e)).effects = [] := by
  refine ⟨?_, ?_, ?_⟩
  · by_cases hok : statusOk status
    · simp [sendTelegramAlert, sendTelegramAlertTry, auditRecords, hph, hok]
    · by_cases h404 : status = 404 <;>
        simp [sendTelegramAlert, sendTelegramAlertTry, auditRecords, hph, hok, h404]
  · by_cases hph2 : placeholderToken cfg.telegramBotToken
    · simp [sendTelegramAlert, auditRecords, hph2]
    · cases ch with
      | netError e2 => simp [sendTelegramAlert, sendTelegramAlertTry, auditRecords, hph2]
      | response s b =>
        by_cases hok : statusOk s
        · simp [sendTelegramAlert, sendTelegramAlertTry, auditRecords, hph2, hok]
        · by_cases h404 : s = 404 <;>
            simp [sendTelegramAlert, sendTelegramAlertTry, auditRecords, hph2, hok, h404]
  · simp [sendTelegramAlert, sendTelegramAlertTry, auditRecords, hph]

/-- Claim C3 witness: with a real-looking token and a 500 response, a
non-startup-test dispatch writes exactly one AlertRecord with status
failed, and the startup-test dispatch on the same inputs writes none. -/
theorem dispatch_audit_record_amended_witness :
    auditRecords (sendTelegramAlert armedCfg 175 false (ChannelResult.response 500 "oops")).effects =
      [{ poolAddress := armedCfg.poolAddress
         price := 175
         lowerBound := armedCfg.priceLowerBound
         upperBound := armedCfg.priceUpperBound
         message := mkMessage armedCfg 175 false
         telegramStatus := if statusOk 500 then "success" else "failed" }] ∧
    auditRecords (sendTelegramAlert armedCfg 175 true (ChannelResult.response 500 "oops")).effects = [] := by
  have h := dispatch_audit_record_amended armedCfg 175 500 "oops" "err"
    (ChannelResult.response 500 "oops") (by decide)
  exact ⟨h.1, h.2.1⟩

/-- Claim C4: when the bot token contains a recognized placeholder
substring, `sendTelegramAlert` emits exactly the mock console log, throws
nothing, and performs no network call, for every price, banner kind and
(hypothetical) channel outcome. -/
theorem dispatch_placeholder_short_circuit
    (cfg : PriceMonitorConfig) (price : ℚ) (isTest : Bool) (ch : ChannelResult)
    (h : placeholderToken cfg.telegramBotToken = true) :
    (sendTelegramAlert cfg price isTest ch).effects =
      [AlertEffect.mockLog (mkMessage cfg price isTest)] ∧
    (sendTelegramAlert cfg price isTest ch).thrown = none ∧
    netCallCount (sendTelegramAlert cfg price isTest ch).effects = 0 := by
  refine ⟨?_, ?_, ?_⟩ <;> simp [sendTelegramAlert, h, netCallCount]

/-- Claim C4 witness: the demo placeholder token short-circuits a real
alert at price 5 with a successful channel available. -/
theorem dispatch_placeholder_short_circuit_witness :
    (sendTelegramAlert demoCfg 5 false (ChannelResult.response 200 "")).effects =
      [AlertEffect.mockLog (mkMessage demoCfg 5 false)] ∧
    (sendTelegramAlert demoCfg 5 false (ChannelResult.response 200 "")).thrown = none ∧
    netCallCount (sendTelegramAlert demoCfg 5 false (ChannelResult.response 200 "")).effects = 0 :=
  dispatch_placeholder_short_circuit demoCfg 5 false (ChannelResult.response 200 "") (by decide)

/-- Claim C5: the dispatcher never throws outward for any input or channel
outcome; an Oracle fetch error or a null pool result in a poll tick is
caught and logged as a single error action (the loop continues); and the
audit write in `FirebaseManager.logAlert` never propagates a failure. -/
theorem dispatch_and_poll_never_throw :
    (∀ (cfg : PriceMonitorConfig) (price : ℚ) (isTest : Bool) (ch : ChannelResult),
      (sendTelegramAlert cfg price isTest ch).thrown = none) ∧
    (∀ (cfg : PriceMonitorConfig) (e : String),
      checkPrice cfg (FetchResult.fetchError e) = [Action.logCheckError e]) ∧
    (∀ cfg : PriceMonitorConfig,
      checkPrice cfg FetchResult.nullData =
        [Action.logCheckError ("Unable to fetch pool data for " ++ cfg.poolAddress)]) ∧
    (∀ (o : AuditOutcome) (rec : AlertRecord), (logAlert o rec).thrown = none) := by
  refine ⟨?_, ?_, ?_, ?_⟩
  · intro cfg price isTest ch
    by_cases hph : placeholderToken cfg.telegramBotToken
    · simp [sendTelegramAlert, hph]
    · cases ch <;> simp [sendTelegramAlert, sendTelegramAlertTry, hph]
  · intro cfg e
    simp [checkPrice, checkPriceTry]
  · intro cfg
    simp [checkPrice, checkPriceTry]
  · intro o rec
    cases o <;> simp [logAlert]

/-- Claim C6: a dispatch whose channel call returns HTTP 404 logs the
fallback console alert, throws nothing to the caller, every audit record
it writes carries channelStatus failed, and a non-startup-test 404
dispatch writes exactly one such record. -/
theorem dispatch_404_downgraded_and_failed
    (cfg : PriceMonitorConfig) (price : ℚ) (isTest : Bool) (body : String)
    (hph : placeholderToken cfg.telegramBotToken = false) :
    AlertEffect.log404Fallback (mkMessage cfg price isTest) ∈
      (sendTelegramAlert cfg price isTest (ChannelResult.response 404 body)).effects ∧
    (sendTelegramAlert cfg price isTest (ChannelResult.response 404 body)).thrown = none ∧
    (∀ rec ∈ auditRecords (sendTelegramAlert cfg price isTest (ChannelResult.response 404 body)).effects,
      rec.telegramStatus = "failed") ∧
    (isTest = false →
      (auditRecords (sendTelegramAlert cfg price isTest (ChannelResult.response 404 body)).effects).length = 1) := by
  have hso : statusOk 404 = false := by decide
  cases isTest with
  | true =>
    refine ⟨?_, ?_, ?_, ?_⟩ <;>
      simp [sendTelegramAlert, sendTelegramAlertTry, auditRecords, hph, hso]
  | false =>
    refine ⟨?_, ?_, ?_, ?_⟩ <;>
      simp [sendTelegramAlert, sendTelegramAlertTry, auditRecords, hph, hso]

/-- Claim C6 witness: a real-token, non-startup-test dispatch hitting a
404 logs the fallback, throws nothing, and its single audit record says
failed. -/
theorem dispatch_404_downgraded_and_failed_witness :
    AlertEffect.log404Fallback (mkMessage armedCfg 175 false) ∈
      (sendTelegramAlert armedCfg 175 false (ChannelResult.response 404 "")).effects ∧
    (sendTelegramAlert armedCfg 175 false (ChannelResult.response 404 "")).thrown = none ∧
    (auditRecords (sendTelegramAlert armedCfg 175 false (ChannelResult.response 404 "")).effects).length = 1 := by
  have h := dispatch_404_downgraded_and_failed armedCfg 175 false "" (by decide)
  exact ⟨h.1, h.2.1, h.2.2.2 rfl⟩

end YieldSense

namespace YieldSense

/-- The fields produced by a config update carrying all three fields with a
non-empty pool address: the update wins on every field. -/
lemma applyConfigUpdate_full (c : PriceMonitorConfig) (a : String) (l u : ℚ)
    (ha : a ≠ "") :
    (applyConfigUpdate c (MonitorConfig.mk (some l) (some u) (some a))).poolAddress = a ∧
    (applyConfigUpdate c (MonitorConfig.mk (some l) (some u) (some a))).priceLowerBound = l ∧
    (applyConfigUpdate c (MonitorConfig.mk (some l) (some u) (some a))).priceUpperBound = u := by
  by_cases hc : a = c.poolAddress
  · subst hc
    simp [applyConfigUpdate]
  · simp [applyConfigUpdate, ha, hc]

/-- Every branch of a successful poll tick starts by querying the
currently configured pool address. -/
lemma checkPrice_head_queryPool (c : PriceMonitorConfig) (rawPrice : ℚ) (mintA : String) :
    (checkPrice c (FetchResult.ok rawPrice mintA)).head? =
      some (Action.queryPool c.poolAddress) := by
  simp only [checkPrice, checkPriceTry]
  split_ifs <;> simp

/-- Claim C7: after any prior updates, a delivered update carrying a
non-empty pool address plus both bounds determines the configuration used
by the next poll (last-write-wins), and the next poll tick queries the new
pool address, not the old one. -/
theorem config_update_next_poll_queries_new_target
    (cfg : PriceMonitorConfig) (prior : List MonitorConfig)
    (a mintA : String) (l u rawPrice : ℚ)
    (ha : a ≠ "") :
    (List.foldl applyConfigUpdate cfg (prior ++ [MonitorConfig.mk (some l) (some u) (some a)])).poolAddress = a ∧
    (List.foldl applyConfigUpdate cfg (prior ++ [MonitorConfig.mk (some l) (some u) (some a)])).priceLowerBound = l ∧
    (List.foldl applyConfigUpdate cfg (prior ++ [MonitorConfig.mk (some l) (some u) (some a)])).priceUpperBound = u ∧
    (checkPrice (List.foldl applyConfigUpdate cfg (prior ++ [MonitorConfig.mk (some l) (some u) (some a)]))
        (FetchResult.ok rawPrice mintA)).head? =
      some (Action.queryPool a) := by
  have hfold : List.foldl applyConfigUpdate cfg (prior ++ [MonitorConfig.mk (some l) (some u) (some a)]) =
      applyConfigUpdate (List.foldl applyConfigUpdate cfg prior)
        (MonitorConfig.mk (some l) (some u) (some a)) := by
    rw [List.foldl_append, List.foldl_cons, List.foldl_nil]
  obtain ⟨hp, hl, hu⟩ :=
    applyConfigUpdate_full (List.foldl applyConfigUpdate cfg prior) a l u ha
  rw [hfold]
  exact ⟨hp, hl, hu, by rw [checkPrice_head_queryPool, hp]⟩

/-- Claim C7 witness: starting from the demo configuration and one stale
update, an update switching to pool NewPool111 with bounds (180, 200)
makes the next poll query NewPool111. -/
theorem config_update_next_poll_queries_new_target_witness :
    (List.foldl applyConfigUpdate demoCfg
        ([MonitorConfig.mk (some 1) (some 2) (some "OldPool999")] ++
          [MonitorConfig.mk (some 180) (some 200) (some "NewPool111")])).poolAddress = "NewPool111" ∧
    (checkPrice (List.foldl applyConfigUpdate demoCfg
        ([MonitorConfig.mk (some 1) (some 2) (some "OldPool999")] ++
          [MonitorConfig.mk (some 180) (some 200) (some "NewPool111")]))
        (FetchResult.ok 175 "So11111111111111111111111111111111111111112")).head? =
      some (Action.queryPool "NewPool111") := by
  have h := config_update_next_poll_queries_new_target demoCfg
    [MonitorConfig.mk (some 1) (some 2) (some "OldPool999")]
    "NewPool111" "So11111111111111111111111111111111111111112" 180 200 175 (by decide)
  exact ⟨h.1, h.2.2.2⟩

/-- Claim C8 counterexample: for a pool whose two mints are both
unrecognized by the quote heuristic (here SOL and jitoSOL), orienting the
raw price 2 gives 2, while orienting the reciprocal with the mint roles
swapped gives 1/2, so the orientation is not invariant under swapping
which token is listed first. -/
theorem orientation_swap_counterexample :
    orientPrice 2 "So11111111111111111111111111111111111111112" ≠
      orientPrice (2 : ℚ)⁻¹ "J1toso1uCk3RLmjorhTtrVwY9HJ7X8V9yYac6Y7kGCPn" := by
  have h1 : isQuoteTokenA "So11111111111111111111111111111111111111112" = false := by decide
  have h2 : isQuoteTokenA "J1toso1uCk3RLmjorhTtrVwY9HJ7X8V9yYac6Y7kGCPn" = false := by decide
  simp only [orientPrice, h1, h2, Bool.false_eq_true, if_false]
  norm_num

/-- Claim C8 (amended): when exactly one of the two mints is recognized as
a stable/quote asset by the heuristic, applying the orientation to the raw
price keyed on the first mint equals applying it to the reciprocal price
keyed on the swapped first mint. -/
theorem orientation_swap_amended
    (p : ℚ) (mintA mintB : String)
    (h : isQuoteTokenA mintA = !(isQuoteTokenA mintB)) :
    orientPrice p mintA = orientPrice p⁻¹ mintB := by
  cases hA : isQuoteTokenA mintA <;> cases hB : isQuoteTokenA mintB <;>
    simp_all [orientPrice, inv_inv]

/-- Claim C8 witness: for a USDC-first SOL pool, orienting the raw price 2
and orienting the reciprocal keyed on the SOL mint agree. -/
theorem orientation_swap_amended_witness :
    orientPrice 2 "EPjFWdd5AufqSSqeM2qN1xzybapC8G4wEGGkZwyTDt1v" =
      orientPrice (2 : ℚ)⁻¹ "So11111111111111111111111111111111111111112" :=
  orientation_swap_amended 2 "EPjFWdd5AufqSSqeM2qN1xzybapC8G4wEGGkZwyTDt1v"
    "So11111111111111111111111111111111111111112" (by decide)

end YieldSense

namespace YieldSense

/-- Claim C9: frame conditions of the config-update callback — a field
absent from the update leaves the corresponding configuration field
unchanged; a present bound replaces that bound; the pool address is left
unchanged by an absent or empty address and is replaced (or already equal)
exactly when the update carries a non-empty address, so a partial update
can leave one bound updated and the other retained. -/
theorem config_update_frame_conditions
    (cfg : PriceMonitorConfig) (nc : MonitorConfig) :
    (nc.priceLowerBound = none →
      (applyConfigUpdate cfg nc).priceLowerBound = cfg.priceLowerBound) ∧
    (∀ l, nc.priceLowerBound = some l → (applyConfigUpdate cfg nc).priceLowerBound = l) ∧
    (nc.priceUpperBound = none →
      (applyConfigUpdate cfg nc).priceUpperBound = cfg.priceUpperBound) ∧
    (∀ u, nc.priceUpperBound = some u → (applyConfigUpdate cfg nc).priceUpperBound = u) ∧
    (nc.poolAddress = none → (applyConfigUpdate cfg nc).poolAddress = cfg.poolAddress) ∧
    (nc.poolAddress = some "" → (applyConfigUpdate cfg nc).poolAddress = cfg.poolAddress) ∧
    (∀ a, nc.poolAddress = some a → a ≠ "" → (applyConfigUpdate cfg nc).poolAddress = a) := by
  rcases nc with ⟨lb, ub, pa⟩
  refine ⟨?_, ?_, ?_, ?_, ?_, ?_, ?_⟩
  · rintro rfl
    cases ub <;> rcases pa with _ | a <;> simp [applyConfigUpdate] <;> split_ifs <;> simp
  · rintro l rfl
    cases ub <;> rcases pa with _ | a <;> simp [applyConfigUpdate]
  · rintro rfl
    cases lb <;> rcases pa with _ | a <;> simp [applyConfigUpdate] <;> split_ifs <;> simp
  · rintro u rfl
    cases lb <;> rcases pa with _ | a <;> simp [applyConfigUpdate]
  · rintro rfl
    cases lb <;> cases ub <;> simp [applyConfigUpdate]
  · rintro rfl
    cases lb <;> cases ub <;> simp [applyConfigUpdate]
  · rintro a rfl ha
    by_cases hc : a = cfg.poolAddress
    · subst hc
      cases lb <;> cases ub <;> simp [applyConfigUpdate]
    · cases lb <;> cases ub <;> simp [applyConfigUpdate, ha, hc]

/-- Claim C9 witness: an update carrying only a lower bound of 5 leaves
the upper bound 200 and the pool address of the demo configuration in
place while replacing the lower bound — a mixed bounds state. -/
theorem config_update_frame_conditions_witness :
    (applyConfigUpdate demoCfg (MonitorConfig.mk (some 5) none none)).priceLowerBound = 5 ∧
    (applyConfigUpdate demoCfg (MonitorConfig.mk (some 5) none none)).priceUpperBound =
      demoCfg.priceUpperBound ∧
    (applyConfigUpdate demoCfg (MonitorConfig.mk (some 5) none none)).poolAddress =
      demoCfg.poolAddress := by
  have h := config_update_frame_conditions demoCfg (MonitorConfig.mk (some 5) none none)
  exact ⟨h.2.1 5 rfl, h.2.2.1 rfl, h.2.2.2.2.1 rfl⟩

/-- For any starting attempt counter, a run of consecutive close events
schedules exactly `min n (maxAttempts - k)` reconnection attempts. -/
lemma wsRun_replicate_close_count (maxAttempts delay : Nat) (c : Bool) (n k : Nat) :
    ((wsRun maxAttempts delay (WSState.mk c k) (List.replicate n WSEvent.socketClose)).2).length =
      min n (maxAttempts - k) := by
  induction n generalizing c k with
  | zero => simp [wsRun]
  | succ n ih =>
    by_cases h : k < maxAttempts
    · simp only [List.replicate_succ, wsRun, wsStep, h, if_true, Option.toList_some,
        List.singleton_append, List.length_cons, ih]
      omega
    · simp only [List.replicate_succ, wsRun, wsStep, h, if_false, Option.toList_none,
        List.nil_append, ih]
      omega

/-- Every reconnect scheduled anywhere in a run uses the fixed delay. -/
lemma wsRun_delay_fixed (maxAttempts delay : Nat) :
    ∀ (es : List WSEvent) (s : WSState) (d : Nat),
      d ∈ (wsRun maxAttempts delay s es).2 → d = delay := by
  intro es
  induction es with
  | nil =>
    intro s d hd
    simp [wsRun] at hd
  | cons e es ih =>
    intro s d hd
    simp only [wsRun, List.mem_append] at hd
    rcases hd with hd | hd
    · cases e with
      | socketOpen => simp [wsStep] at hd
      | socketClose =>
        by_cases h : s.reconnectAttempts < maxAttempts <;>
          simp [wsStep, h] at hd
        exact hd
    · exact ih _ _ hd

/-- The attempt counter never exceeds the cap. -/
lemma wsRun_attempts_le (maxAttempts delay : Nat) :
    ∀ (es : List WSEvent) (s : WSState),
      s.reconnectAttempts ≤ maxAttempts →
      (wsRun maxAttempts delay s es).1.reconnectAttempts ≤ maxAttempts := by
  intro es
  induction es with
  | nil =>
    intro s hs
    simpa [wsRun] using hs
  | cons e es ih =>
    intro s hs
    cases e with
    | socketOpen =>
      simpa [wsRun, wsStep] using ih _ (Nat.zero_le _)
    | socketClose =>
      by_cases h : s.reconnectAttempts < maxAttempts
      · simpa [wsRun, wsStep, h] using
          ih (WSState.mk false (s.reconnectAttempts + 1)) (Nat.succ_le_of_lt h)
      · simpa [wsRun, wsStep, h] using
          ih (WSState.mk false s.reconnectAttempts) hs

/-- Claim C10: with the default cap 10 and default delay 3000 ms, a run of
n consecutive connection failures schedules exactly min n 10 reconnection
attempts; every scheduled attempt uses the fixed 3000 ms delay; a
successful connection resets the counter to zero and marks the client
connected; once the counter has reached the cap a further close schedules
nothing and leaves the client disconnected; a close always surfaces the
disconnected state; and the counter never exceeds the cap. -/
theorem ws_reconnect_bounded :
    (∀ n : Nat,
      ((wsRun defaultMaxReconnectAttempts defaultReconnectDelay wsInit
          (List.replicate n WSEvent.socketClose)).2).length = min n defaultMaxReconnectAttempts) ∧
    (∀ (es : List WSEvent) (s : WSState) (d : Nat),
      d ∈ (wsRun defaultMaxReconnectAttempts defaultReconnectDelay s es).2 →
        d = defaultReconnectDelay) ∧
    (∀ s : WSState,
      wsStep defaultMaxReconnectAttempts defaultReconnectDelay s WSEvent.socketOpen =
        (WSState.mk true 0, none)) ∧
    (∀ s : WSState, s.reconnectAttempts = defaultMaxReconnectAttempts →
      wsStep defaultMaxReconnectAttempts defaultReconnectDelay s WSEvent.socketClose =
        (WSState.mk false s.reconnectAttempts, none)) ∧
    (∀ s : WSState,
      ((wsStep defaultMaxReconnectAttempts defaultReconnectDelay s WSEvent.socketClose).1).isConnected = false) ∧
    (∀ es : List WSEvent,
      (wsRun defaultMaxReconnectAttempts defaultReconnectDelay wsInit es).1.reconnectAttempts ≤
        defaultMaxReconnectAttempts) := by
  refine ⟨?_, ?_, ?_, ?_, ?_, ?_⟩
  · intro n
    simpa [wsInit] using
      wsRun_replicate_close_count defaultMaxReconnectAttempts defaultReconnectDelay false n 0
  · exact wsRun_delay_fixed defaultMaxReconnectAttempts defaultReconnectDelay
  · intro s
    rfl
  · intro s hs
    simp [wsStep, hs]
  · intro s
    by_cases h : s.reconnectAttempts < defaultMaxReconnectAttempts <;> simp [wsStep, h]
  · intro es
    exact wsRun_attempts_le defaultMaxReconnectAttempts defaultReconnectDelay es wsInit
      (Nat.zero_le _)

/-- Claim C10 witness: twelve consecutive failures schedule exactly ten
attempts; the only delay scheduled by a single failure is 3000 ms; and at
the cap a further close schedules nothing. -/
theorem ws_reconnect_bounded_witness :
    ((wsRun defaultMaxReconnectAttempts defaultReconnectDelay wsInit
        (List.replicate 12 WSEvent.socketClose)).2).length = min 12 defaultMaxReconnectAttempts ∧
    (3000 : Nat) = defaultReconnectDelay ∧
    wsStep defaultMaxReconnectAttempts defaultReconnectDelay (WSState.mk false 10)
        WSEvent.socketClose = (WSState.mk false (WSState.mk false 10).reconnectAttempts, none) := by
  refine ⟨ws_reconnect_bounded.1 12, ?_, ?_⟩
  · exact ws_reconnect_bounded.2.1 [WSEvent.socketClose] wsInit 3000 (by decide)
  · exact ws_reconnect_bounded.2.2.2.1 (WSState.mk false 10) rfl

end YieldSense
